import Mathlib

/-!
Verification of the `FastAPIApp` wrapper class (src/applications.py).

The repository is a thin builder façade over one underlying web-framework
application object.  The wrapper's own code (constructor, middleware
attachment methods, `get_app`) is embedded directly from the source; the
underlying framework application is external to the repository and is
modelled from the spec as a record of the metadata fields it receives plus
its middleware chain.  Python's in-place mutation is rendered as explicit
state passing, and the attribute-access failure of calling a method on a
builder whose application was never constructed is rendered as an `Except`
error value.
-/

/-- A plain configuration value, standing for the arbitrary Python values
carried by the open-ended keyword-argument channel and by the tag, contact
and license mappings. -/
inductive Value where
  | str : String → Value
  | int : Int → Value
  | bool : Bool → Value
deriving DecidableEq

/-- A key/value mapping (Python `Dict[str, Any]`), as an association list. -/
abbrev KV := List (String × Value)

/-- One middleware unit: the middleware kind together with the configuration
options it was attached with.  The four named kinds are the ones the wrapper
has convenience methods for; `custom` is the arbitrary caller-supplied kind
accepted by the generic `add_middleware`. -/
inductive Middleware where
  | cors (allow_origins : List String) (allow_credentials : Bool)
      (allow_methods : List String) (allow_headers : List String)
  | gzip (minimum_size : Int)
  | httpsRedirect
  | trustedHost (allowed_hosts : List String)
  | custom (middleware_class : String) (kwargs : KV)
deriving DecidableEq

/-- Modelled from the spec: the underlying framework application object
(`fastapi.FastAPI`, an external collaborator not part of this repository).
It holds exactly the metadata fields the wrapper's constructor forwards,
the open-ended extension options forwarded verbatim, and the ordered
middleware chain.  `openapiPrefix` embeds the source's OpenAPI path-prefix
field. -/
structure FastAPI where
  title : String
  description : String
  version : String
  docs_url : Option String
  redoc_url : Option String
  openapi_url : Option String
  openapiPrefix : String
  openapi_tags : Option (List KV)
  terms_of_service : Option String
  contact : Option KV
  license_info : Option KV
  kwargs : KV
  user_middleware : List Middleware
deriving DecidableEq

/-- Modelled from the spec: the underlying framework's middleware
registration — it records one middleware unit per call, in call order
(the framework then applies the chain in reverse-attachment order at
request time, a deterministic function of this recorded order). -/
def FastAPI.add_middleware (self : FastAPI) (m : Middleware) : FastAPI :=
  { self with user_middleware := self.user_middleware ++ [m] }

/-- Modelled from the spec: the underlying framework's trusted-host check —
a request is accepted iff its Host header matches some allowed pattern;
a pattern matches exactly, or is the wildcard, or is a leading-wildcard
suffix pattern. -/
def hostMatches (pat host : String) : Bool :=
  pat == "*" || pat == host || (pat.startsWith "*" && host.endsWith (pat.drop 1))

/-- Modelled from the spec: whether the trusted-host middleware configured
with `allowed_hosts` lets a request with the given Host header through. -/
def trustedHostAllows (allowed_hosts : List String) (host : String) : Bool :=
  allowed_hosts.any fun pat => hostMatches pat host

/-- The wrapper's only own failure class: invoking an attachment or
retrieval method on a builder whose underlying application was never
constructed (in Python, the attribute access `self.app` raising). -/
inductive WrapperError where
  | preconditionViolation
deriving DecidableEq

/-- The builder class `FastAPIApp`.  Its single piece of state is the
underlying application; `none` is the never-constructed state reachable
only by bypassing the constructor. -/
structure FastAPIApp where
  app : Option FastAPI
deriving DecidableEq

/-- `FastAPIApp.__init__`: constructs the underlying application,
forwarding every named field verbatim together with the extra keyword
arguments, exactly as in the source. -/
def FastAPIApp.init
    (title : String := "FastAPI")
    (description : String := "")
    (version : String := "0.1.0")
    (docs_url : Option String := some "/docs")
    (redoc_url : Option String := some "/redoc")
    (openapi_url : Option String := some "/openapi.json")
    (openapiPrefix : String := "")
    (openapi_tags : Option (List KV) := none)
    (terms_of_service : Option String := none)
    (contact : Option KV := none)
    (license_info : Option KV := none)
    (kwargs : KV := []) : FastAPIApp :=
  { app := some ⟨title, description, version, docs_url, redoc_url, openapi_url,
      openapiPrefix, openapi_tags, terms_of_service, contact, license_info,
      kwargs, []⟩ }

/-- `FastAPIApp.add_middleware`: delegates to the underlying application's
middleware registration, forwarding the class and the keyword arguments
verbatim. -/
def FastAPIApp.add_middleware (self : FastAPIApp) (middleware_class : String)
    (kwargs : KV) : Except WrapperError FastAPIApp :=
  match self.app with
  | none => .error .preconditionViolation
  | some a => .ok { app := some (a.add_middleware (.custom middleware_class kwargs)) }

/-- `FastAPIApp.add_cors_middleware`: CORS convenience form with the
source's defaults. -/
def FastAPIApp.add_cors_middleware (self : FastAPIApp)
    (allow_origins : List String := ["*"])
    (allow_credentials : Bool := true)
    (allow_methods : List String := ["*"])
    (allow_headers : List String := ["*"]) : Except WrapperError FastAPIApp :=
  match self.app with
  | none => .error .preconditionViolation
  | some a => .ok { app := some (a.add_middleware
      (.cors allow_origins allow_credentials allow_methods allow_headers)) }

/-- `FastAPIApp.add_gzip_middleware`: GZip convenience form with the
source's default threshold. -/
def FastAPIApp.add_gzip_middleware (self : FastAPIApp)
    (minimum_size : Int := 500) : Except WrapperError FastAPIApp :=
  match self.app with
  | none => .error .preconditionViolation
  | some a => .ok { app := some (a.add_middleware (.gzip minimum_size)) }

/-- `FastAPIApp.add_https_redirect_middleware`: HTTPS-redirect convenience
form, no options. -/
def FastAPIApp.add_https_redirect_middleware (self : FastAPIApp) :
    Except WrapperError FastAPIApp :=
  match self.app with
  | none => .error .preconditionViolation
  | some a => .ok { app := some (a.add_middleware .httpsRedirect) }

/-- `FastAPIApp.add_trusted_host_middleware`: trusted-host convenience
form; `allowed_hosts` is a required parameter forwarded verbatim. -/
def FastAPIApp.add_trusted_host_middleware (self : FastAPIApp)
    (allowed_hosts : List String) : Except WrapperError FastAPIApp :=
  match self.app with
  | none => .error .preconditionViolation
  | some a => .ok { app := some (a.add_middleware (.trustedHost allowed_hosts)) }

/-- `FastAPIApp.get_app`: returns the owned underlying application
instance. -/
def FastAPIApp.get_app (self : FastAPIApp) : Except WrapperError FastAPI :=
  match self.app with
  | none => .error .preconditionViolation
  | some a => .ok a

/-- A concrete constructed application, used by the witness statements. -/
def sampleApp : FastAPI :=
  ⟨"FastAPI", "", "0.1.0", some "/docs", some "/redoc", some "/openapi.json",
    "", none, none, none, none, [], []⟩

/-- A concrete constructed builder, used by the witness statements. -/
def sampleBuilder : FastAPIApp := ⟨some sampleApp⟩

/-- A concrete never-constructed builder, used by the witness statements. -/
def rawBuilder : FastAPIApp := ⟨none⟩

/-- The metadata fields of the underlying application bundled together:
everything except the middleware chain.  Used to state frame properties. -/
def FastAPI.metadata (a : FastAPI) :
    String × String × String × Option String × Option String × Option String ×
      String × Option (List KV) × Option String × Option KV × Option KV × KV :=
  (a.title, a.description, a.version, a.docs_url, a.redoc_url, a.openapi_url,
    a.openapiPrefix, a.openapi_tags, a.terms_of_service, a.contact,
    a.license_info, a.kwargs)

/-- C1: for every valid ApplicationConfig passed to the constructor, the
application returned by `get_app` has metadata fields equal exactly to the
fields passed in — each field is forwarded verbatim to the underlying
constructor with no transformation, and the middleware chain starts
empty. -/
theorem c1_config_forwarded_verbatim
    (title description version : String)
    (docs_url redoc_url openapi_url : Option String)
    (openapiPrefix : String)
    (openapi_tags : Option (List KV))
    (terms_of_service : Option String)
    (contact license_info : Option KV)
    (kwargs : KV) :
    (FastAPIApp.init title description version docs_url redoc_url openapi_url
        openapiPrefix openapi_tags terms_of_service contact license_info
        kwargs).get_app =
      .ok ⟨title, description, version, docs_url, redoc_url, openapi_url,
        openapiPrefix, openapi_tags, terms_of_service, contact, license_info,
        kwargs, []⟩ := rfl

/-- C2: on a constructed builder, each attachment call records and installs
exactly one middleware unit on the underlying application (the chain grows
by exactly that unit), and the chain reflects the caller's attachment
order: attaching GZip then CORS yields a chain with the GZip unit recorded
before the CORS unit. -/
theorem c2_attachment_order_preserved
    (b : FastAPIApp) (a : FastAPI) (h : b.app = some a)
    (middleware_class : String) (kwargs : KV)
    (minimum_size : Int)
    (allow_origins : List String) (allow_credentials : Bool)
    (allow_methods allow_headers : List String) :
    (b.add_middleware middleware_class kwargs =
        .ok { app := some { a with user_middleware :=
          a.user_middleware ++ [.custom middleware_class kwargs] } }) ∧
    (∃ b₁ b₂,
      b.add_gzip_middleware minimum_size = .ok b₁ ∧
      b₁.add_cors_middleware allow_origins allow_credentials allow_methods
        allow_headers = .ok b₂ ∧
      b₂.app = some { a with user_middleware := a.user_middleware ++
        [.gzip minimum_size,
         .cors allow_origins allow_credentials allow_methods allow_headers] }) := by
  obtain ⟨o⟩ := b
  cases h
  refine ⟨rfl, _, _, rfl, rfl, ?_⟩
  simp [FastAPI.add_middleware, FastAPIApp.add_cors_middleware]

/-- Witness for C2 at a concrete builder and concrete options. -/
theorem c2_witness :
    (sampleBuilder.add_middleware "LoggingMiddleware" [] =
        .ok { app := some { sampleApp with user_middleware :=
          sampleApp.user_middleware ++ [.custom "LoggingMiddleware" []] } }) ∧
    (∃ b₁ b₂,
      sampleBuilder.add_gzip_middleware 1000 = .ok b₁ ∧
      b₁.add_cors_middleware ["https://example.com"] false ["GET"]
        ["X-Token"] = .ok b₂ ∧
      b₂.app = some { sampleApp with user_middleware :=
        sampleApp.user_middleware ++
          [.gzip 1000,
           .cors ["https://example.com"] false ["GET"] ["X-Token"]] }) :=
  c2_attachment_order_preserved sampleBuilder sampleApp rfl
    "LoggingMiddleware" [] 1000 ["https://example.com"] false ["GET"] ["X-Token"]

/-- C3: on a builder whose underlying application was never constructed,
every attachment method and the retrieval method fail with the
precondition-violation error — none of them silently no-ops. -/
theorem c3_precondition_violation_before_construction
    (b : FastAPIApp) (h : b.app = none)
    (middleware_class : String) (kwargs : KV)
    (allow_origins : List String) (allow_credentials : Bool)
    (allow_methods allow_headers : List String)
    (minimum_size : Int) (allowed_hosts : List String) :
    b.add_middleware middleware_class kwargs = .error .preconditionViolation ∧
    b.add_cors_middleware allow_origins allow_credentials allow_methods
      allow_headers = .error .preconditionViolation ∧
    b.add_gzip_middleware minimum_size = .error .preconditionViolation ∧
    b.add_https_redirect_middleware = .error .preconditionViolation ∧
    b.add_trusted_host_middleware allowed_hosts = .error .preconditionViolation ∧
    b.get_app = .error .preconditionViolation := by
  obtain ⟨o⟩ := b
  cases h
  exact ⟨rfl, rfl, rfl, rfl, rfl, rfl⟩

/-- Witness for C3 at the concrete never-constructed builder. -/
theorem c3_witness :
    rawBuilder.add_middleware "LoggingMiddleware" [] = .error .preconditionViolation ∧
    rawBuilder.add_cors_middleware ["*"] true ["*"] ["*"] = .error .preconditionViolation ∧
    rawBuilder.add_gzip_middleware 500 = .error .preconditionViolation ∧
    rawBuilder.add_https_redirect_middleware = .error .preconditionViolation ∧
    rawBuilder.add_trusted_host_middleware ["example.com"] = .error .preconditionViolation ∧
    rawBuilder.get_app = .error .preconditionViolation :=
  c3_precondition_violation_before_construction rawBuilder rfl
    "LoggingMiddleware" [] ["*"] true ["*"] ["*"] 500 ["example.com"]

/-- C4: `add_trusted_host_middleware` forwards any supplied
`allowed_hosts` sequence unchanged to the trusted-host middleware — the
wrapper neither swallows nor alters it — and when the list is empty the
modelled framework check rejects every request, since no Host header
matches any pattern of an empty list. -/
theorem c4_trusted_host_forwarded
    (b : FastAPIApp) (a : FastAPI) (h : b.app = some a)
    (allowed_hosts : List String) :
    (b.add_trusted_host_middleware allowed_hosts =
        .ok { app := some { a with user_middleware :=
          a.user_middleware ++ [.trustedHost allowed_hosts] } }) ∧
    (allowed_hosts = [] →
      ∀ host, trustedHostAllows allowed_hosts host = false) := by
  obtain ⟨o⟩ := b
  cases h
  refine ⟨rfl, ?_⟩
  rintro rfl host
  rfl

/-- Witness for C4 at the concrete builder with the empty host list. -/
theorem c4_witness :
    (sampleBuilder.add_trusted_host_middleware [] =
        .ok { app := some { sampleApp with user_middleware :=
          sampleApp.user_middleware ++ [.trustedHost []] } }) ∧
    (([] : List String) = [] →
      ∀ host, trustedHostAllows [] host = false) :=
  c4_trusted_host_forwarded sampleBuilder sampleApp rfl []

/-- C5: the CORS convenience attachment defaults to the wildcard for
allow_origins, allow_methods and allow_headers and to true for
allow_credentials (the call with no options equals the call with exactly
those options), and for any supplied options it installs exactly one CORS
unit whose options are the supplied values unchanged. -/
theorem c5_cors_defaults_and_forwarding
    (b : FastAPIApp) (a : FastAPI) (h : b.app = some a)
    (allow_origins : List String) (allow_credentials : Bool)
    (allow_methods allow_headers : List String) :
    ((FastAPIApp.add_cors_middleware b : Except WrapperError FastAPIApp) =
        b.add_cors_middleware ["*"] true ["*"] ["*"]) ∧
    (b.add_cors_middleware allow_origins allow_credentials allow_methods
        allow_headers =
      .ok { app := some { a with user_middleware := a.user_middleware ++
        [.cors allow_origins allow_credentials allow_methods allow_headers] } }) := by
  obtain ⟨o⟩ := b
  cases h
  exact ⟨rfl, rfl⟩

/-- Witness for C5 at a concrete builder with the spec's example options. -/
theorem c5_witness :
    ((FastAPIApp.add_cors_middleware sampleBuilder :
        Except WrapperError FastAPIApp) =
      sampleBuilder.add_cors_middleware ["*"] true ["*"] ["*"]) ∧
    (sampleBuilder.add_cors_middleware ["https://example.com"] false ["*"]
        ["*"] =
      .ok { app := some { sampleApp with user_middleware :=
        sampleApp.user_middleware ++
          [.cors ["https://example.com"] false ["*"] ["*"]] } }) :=
  c5_cors_defaults_and_forwarding sampleBuilder sampleApp rfl
    ["https://example.com"] false ["*"] ["*"]

/-- C6: the GZip convenience attachment defaults to minimum_size = 500
(the call with no options equals the call with exactly 500), and for any
supplied minimum_size the threshold installed on the GZip unit is exactly
the supplied value, unmodified. -/
theorem c6_gzip_default_and_forwarding
    (b : FastAPIApp) (a : FastAPI) (h : b.app = some a)
    (minimum_size : Int) :
    ((FastAPIApp.add_gzip_middleware b : Except WrapperError FastAPIApp) =
        b.add_gzip_middleware 500) ∧
    (b.add_gzip_middleware minimum_size =
      .ok { app := some { a with user_middleware :=
        a.user_middleware ++ [.gzip minimum_size] } }) := by
  obtain ⟨o⟩ := b
  cases h
  exact ⟨rfl, rfl⟩

/-- Witness for C6 at a concrete builder with minimum_size = 1000. -/
theorem c6_witness :
    ((FastAPIApp.add_gzip_middleware sampleBuilder :
        Except WrapperError FastAPIApp) =
      sampleBuilder.add_gzip_middleware 500) ∧
    (sampleBuilder.add_gzip_middleware 1000 =
      .ok { app := some { sampleApp with user_middleware :=
        sampleApp.user_middleware ++ [.gzip 1000] } }) :=
  c6_gzip_default_and_forwarding sampleBuilder sampleApp rfl 1000

/-- C7: `get_app` returns the single owned underlying application itself —
the very instance stored in the builder's state, the one the constructor
created and the one every attachment method mutates: after an attachment,
`get_app` returns exactly the mutated instance. -/
theorem c7_get_app_returns_owned_instance
    (b : FastAPIApp) (a : FastAPI) (h : b.app = some a)
    (middleware_class : String) (kwargs : KV) :
    b.get_app = .ok a ∧
    (∃ b', b.add_middleware middleware_class kwargs = .ok b' ∧
      b'.app = some (a.add_middleware (.custom middleware_class kwargs)) ∧
      b'.get_app = .ok (a.add_middleware (.custom middleware_class kwargs))) := by
  obtain ⟨o⟩ := b
  cases h
  exact ⟨rfl, _, rfl, rfl, rfl⟩

/-- Witness for C7 at a concrete builder. -/
theorem c7_witness :
    sampleBuilder.get_app = .ok sampleApp ∧
    (∃ b', sampleBuilder.add_middleware "LoggingMiddleware" [] = .ok b' ∧
      b'.app = some (sampleApp.add_middleware (.custom "LoggingMiddleware" [])) ∧
      b'.get_app = .ok (sampleApp.add_middleware
        (.custom "LoggingMiddleware" []))) :=
  c7_get_app_returns_owned_instance sampleBuilder sampleApp rfl
    "LoggingMiddleware" []

/-- C8: the wrapper validates nothing of its own: the constructor succeeds
on every input and stores the caller's extension options verbatim on the
underlying application, and the generic attachment on a constructed
builder succeeds on every input, forwarding the middleware class and its
options verbatim — the wrapper raises no error of its own here and alters
no outcome. -/
theorem c8_no_own_validation
    (title description version : String)
    (docs_url redoc_url openapi_url : Option String)
    (openapiPrefix : String)
    (openapi_tags : Option (List KV))
    (terms_of_service : Option String)
    (contact license_info : Option KV)
    (kwargs : KV)
    (b : FastAPIApp) (a : FastAPI) (h : b.app = some a)
    (middleware_class : String) (mkwargs : KV) :
    (∃ app, (FastAPIApp.init title description version docs_url redoc_url
        openapi_url openapiPrefix openapi_tags terms_of_service contact
        license_info kwargs).app = some app ∧ app.kwargs = kwargs) ∧
    (b.add_middleware middleware_class mkwargs =
      .ok { app := some { a with user_middleware :=
        a.user_middleware ++ [.custom middleware_class mkwargs] } }) := by
  obtain ⟨o⟩ := b
  cases h
  exact ⟨⟨_, rfl, rfl⟩, rfl⟩

/-- Witness for C8 at concrete inputs, including a malformed version
string and unrecognized extension options, all accepted and forwarded. -/
theorem c8_witness :
    (∃ app, (FastAPIApp.init "T" "D" "not-a-version" none none none "" none
        none none none [("debug", Value.bool true)]).app = some app ∧
      app.kwargs = [("debug", Value.bool true)]) ∧
    (sampleBuilder.add_middleware "LoggingMiddleware"
        [("level", Value.int 3)] =
      .ok { app := some { sampleApp with user_middleware :=
        sampleApp.user_middleware ++
          [.custom "LoggingMiddleware" [("level", Value.int 3)]] } }) :=
  c8_no_own_validation "T" "D" "not-a-version" none none none "" none none
    none none [("debug", Value.bool true)] sampleBuilder sampleApp rfl
    "LoggingMiddleware" [("level", Value.int 3)]

/-- C9: constructing the builder with no arguments succeeds and yields an
application whose metadata defaults are title "FastAPI", description "",
version "0.1.0", docs path "/docs", redoc path "/redoc", schema path
"/openapi.json", empty OpenAPI path prefix, and absent tags,
terms-of-service, contact and license info. -/
theorem c9_constructor_defaults :
    (FastAPIApp.init : FastAPIApp).app =
      some ⟨"FastAPI", "", "0.1.0", some "/docs", some "/redoc",
        some "/openapi.json", "", none, none, none, none, [], []⟩ := rfl

/-- C10: frame property — every attachment operation (generic, CORS, GZip,
HTTPS-redirect, trusted-host) on a constructed builder changes only the
underlying application's middleware chain: all metadata fields are
unchanged by every attachment call. -/
theorem c10_attachments_preserve_metadata
    (b : FastAPIApp) (a : FastAPI) (h : b.app = some a)
    (middleware_class : String) (kwargs : KV)
    (allow_origins : List String) (allow_credentials : Bool)
    (allow_methods allow_headers : List String)
    (minimum_size : Int) (allowed_hosts : List String) :
    (∃ a₁, b.add_middleware middleware_class kwargs = .ok ⟨some a₁⟩ ∧
      a₁.metadata = a.metadata) ∧
    (∃ a₂, b.add_cors_middleware allow_origins allow_credentials
        allow_methods allow_headers = .ok ⟨some a₂⟩ ∧
      a₂.metadata = a.metadata) ∧
    (∃ a₃, b.add_gzip_middleware minimum_size = .ok ⟨some a₃⟩ ∧
      a₃.metadata = a.metadata) ∧
    (∃ a₄, b.add_https_redirect_middleware = .ok ⟨some a₄⟩ ∧
      a₄.metadata = a.metadata) ∧
    (∃ a₅, b.add_trusted_host_middleware allowed_hosts = .ok ⟨some a₅⟩ ∧
      a₅.metadata = a.metadata) := by
  obtain ⟨o⟩ := b
  cases h
  exact ⟨⟨_, rfl, rfl⟩, ⟨_, rfl, rfl⟩, ⟨_, rfl, rfl⟩, ⟨_, rfl, rfl⟩,
    ⟨_, rfl, rfl⟩⟩

/-- Witness for C10 at a concrete builder and concrete options. -/
theorem c10_witness :
    (∃ a₁, sampleBuilder.add_middleware "LoggingMiddleware" [] =
        .ok ⟨some a₁⟩ ∧ a₁.metadata = sampleApp.metadata) ∧
    (∃ a₂, sampleBuilder.add_cors_middleware ["https://example.com"] false
        ["GET"] ["X-Token"] = .ok ⟨some a₂⟩ ∧
      a₂.metadata = sampleApp.metadata) ∧
    (∃ a₃, sampleBuilder.add_gzip_middleware 1000 = .ok ⟨some a₃⟩ ∧
      a₃.metadata = sampleApp.metadata) ∧
    (∃ a₄, sampleBuilder.add_https_redirect_middleware = .ok ⟨some a₄⟩ ∧
      a₄.metadata = sampleApp.metadata) ∧
    (∃ a₅, sampleBuilder.add_trusted_host_middleware ["example.com"] =
        .ok ⟨some a₅⟩ ∧ a₅.metadata = sampleApp.metadata) :=
  c10_attachments_preserve_metadata sampleBuilder sampleApp rfl
    "LoggingMiddleware" [] ["https://example.com"] false ["GET"] ["X-Token"]
    1000 ["example.com"]
